import Mathlib

/-!
Shallow embedding of the Cary curbside pick-up Alexa skill (`main.go`) and
proofs about its behaviour.  Pure functions of the Go source are translated
to Lean functions; the two outbound HTTP calls are modelled by passing their
outcome explicitly; Go errors become `Except String`.
-/

namespace Cary

/-- Models Go `strings.ToLower` on a single character (adequate for the ASCII
strings this program handles). -/
def goToLower (c : Char) : Char :=
  if 'A' ≤ c ∧ c ≤ 'Z' then Char.ofNat (c.toNat + 32) else c

/-- Models Go `strings.ToLower` on a string. -/
def strToLower (s : String) : String :=
  ⟨s.data.map goToLower⟩

/-- `serviceOccurrence` from `main.go`: a curbside pick-up service on a
specific day (`day` in `YYYY-MM-DD` format). -/
structure serviceOccurrence where
  day : String
  name : String
deriving DecidableEq

/-- `serviceOccurrence.GetName`: the friendly name of the service. -/
def serviceOccurrence.GetName (s : serviceOccurrence) : String :=
  if s.name = "yardwaste" then "Yard Waste"
  else if s.name = "looseleaf" then "Leaf Collection"
  else s.name

/-! ### Date model: Go `time.Parse "2006-01-02"` and
`Format "Monday, January 2, 2006"` restricted to those two layouts. -/

/-- A calendar date as Go's `time.Time` carries it (year, month, day). -/
structure GoDate where
  year : Nat
  month : Nat
  day : Nat
deriving DecidableEq

/-- Go's zero `time.Time` is January 1 of year 1. -/
def zeroDate : GoDate := ⟨1, 1, 1⟩

/-- Gregorian leap-year rule, as in Go's `isLeap`. -/
def isLeap (y : Nat) : Bool :=
  y % 4 == 0 && (y % 100 != 0 || y % 400 == 0)

/-- Days in a month, as in Go's `daysIn`. -/
def daysInMonth (y m : Nat) : Nat :=
  if m = 2 then (if isLeap y then 29 else 28)
  else if m = 4 ∨ m = 6 ∨ m = 9 ∨ m = 11 then 30
  else 31

/-- Decimal value of an ASCII digit, `none` on a non-digit. -/
def digitVal (c : Char) : Option Nat :=
  if c.isDigit then some (c.toNat - 48) else none

/-- Models Go `time.Parse("2006-01-02", s)`: exactly four digits, dash, two
digits, dash, two digits; month must be 1..12 and day 1..daysInMonth
(Go rejects out-of-range months and days). Returns `none` exactly when Go
returns a parse error. -/
def parseDate (s : String) : Option GoDate :=
  match s.data with
  | [y1, y2, y3, y4, '-', m1, m2, '-', d1, d2] =>
    match digitVal y1, digitVal y2, digitVal y3, digitVal y4,
          digitVal m1, digitVal m2, digitVal d1, digitVal d2 with
    | some a, some b, some c, some d, some e, some f, some g, some h =>
      let y := a * 1000 + b * 100 + c * 10 + d
      let m := e * 10 + f
      let dd := g * 10 + h
      if 1 ≤ m ∧ m ≤ 12 ∧ 1 ≤ dd ∧ dd ≤ daysInMonth y m then
        some ⟨y, m, dd⟩
      else none
    | _, _, _, _, _, _, _, _ => none
  | _ => none

/-- Number of days from the civil epoch 1970-01-01 (negative before it);
standard proleptic-Gregorian day count, matching Go's internal calendar. -/
def daysFromCivil (d : GoDate) : Int :=
  let y : Int := if d.month ≤ 2 then (d.year : Int) - 1 else (d.year : Int)
  let era : Int := y.fdiv 400
  let yoe : Int := y - era * 400
  let mp : Int := if d.month > 2 then (d.month : Int) - 3 else (d.month : Int) + 9
  let doy : Int := (153 * mp + 2).fdiv 5 + (d.day : Int) - 1
  let doe : Int := yoe * 365 + yoe.fdiv 4 - yoe.fdiv 100 + doy
  era * 146097 + doe - 719468

/-- Weekday name of a date (1970-01-01 was a Thursday). -/
def weekdayName (d : GoDate) : String :=
  ["Sunday", "Monday", "Tuesday", "Wednesday", "Thursday", "Friday",
   "Saturday"].getD ((daysFromCivil d + 4).emod 7).toNat ""

/-- Month name as Go's `Month.String` renders it. -/
def monthName (m : Nat) : String :=
  ["January", "February", "March", "April", "May", "June", "July",
   "August", "September", "October", "November", "December"].getD (m - 1) ""

/-- Go's layout token `2006` zero-pads the year to four digits
(`appendInt(b, year, 4)`), so year 1 prints as `0001`. -/
def padYear (y : Nat) : String :=
  if y < 10 then "000" ++ toString y
  else if y < 100 then "00" ++ toString y
  else if y < 1000 then "0" ++ toString y
  else toString y

/-- Models Go `t.Format("Monday, January 2, 2006")`. -/
def formatGoDate (d : GoDate) : String :=
  weekdayName d ++ ", " ++ monthName d.month ++ " " ++ toString d.day ++
    ", " ++ padYear d.year

/-- `serviceOccurrence.GetFormattedDay`: Go discards the `time.Parse` error
(`t, _ := time.Parse(...)`), so an unparseable day formats the zero time. -/
def serviceOccurrence.GetFormattedDay (s : serviceOccurrence) : String :=
  match parseDate s.day with
  | some d => formatGoDate d
  | none => formatGoDate zeroDate

/-! ### HTTP layer model.  Each outbound `client.Get` is modelled by the
outcome the Go code inspects: a transport error (carrying the error text),
a non-200 status (carrying `resp.Status`), a body-read error, or a body
whose JSON decode result is `some` typed value or `none` on decode error. -/

/-- Outcome of one HTTP GET, as seen by the Go code. -/
inductive FetchOutcome (α : Type) where
  | transportError (msg : String)
  | badStatus (status : String)
  | readError
  | body (decoded : Option α)

/-- `addressItem` from `getAddressID`: one candidate of the address-suggest
endpoint, exposing its `place_id`. -/
structure addressItem where
  placeID : String
deriving DecidableEq

/-- A response title/text pair (`alexa.NewSimpleResponse title msg`). -/
structure Response where
  title : String
  text : String
deriving DecidableEq

/-- `getAddressID` from `main.go`, as a function of the HTTP outcome of the
address-suggest call: propagates the transport error, fails on non-200
status, on read error and on decode error, fails with "the address wasn't
found" on an empty candidate array, and returns the first candidate's
`place_id` otherwise. -/
def getAddressID (outcome : FetchOutcome (List addressItem)) :
    Except String String :=
  match outcome with
  | .transportError msg => .error msg
  | .badStatus status => .error ("failed to find the address: " ++ status)
  | .readError => .error "failed to find the address: read error"
  | .body none => .error "failed to unmarshall the response"
  | .body (some addresses) =>
    match addresses with
    | [] => .error "the address wasn't found"
    | a :: _ => .ok a.placeID

/-- `flag` from `getThirtyDaySchedule`: a name plus its `service_name` tag. -/
structure flag where
  Name : String
  ServiceName : String
deriving DecidableEq

/-- `event` from `getThirtyDaySchedule`: a day plus its flags. -/
structure event where
  Day : String
  Flags : List flag
deriving DecidableEq

/-- `eventJSON` from `getThirtyDaySchedule`: the decoded events payload. -/
structure eventJSON where
  Events : List event
deriving DecidableEq

/-- The inner `for _, flag := range event.Flags` loop with its `break`:
the first flag whose `ServiceName` equals "waste", if any. -/
def firstWasteFlag : List flag → Option flag
  | [] => none
  | f :: rest =>
    if f.ServiceName = "waste" then some f else firstWasteFlag rest

/-- The occurrence-building loop of `getThirtyDaySchedule`: one occurrence
per event that has a waste-tagged flag, built from the event's day and the
first such flag's name, in event order. -/
def buildOccurrences : List event → List serviceOccurrence
  | [] => []
  | e :: rest =>
    match firstWasteFlag e.Flags with
    | some f => ⟨e.Day, f.Name⟩ :: buildOccurrences rest
    | none => buildOccurrences rest

/-- `getThirtyDaySchedule` from `main.go`, as a function of the outcomes of
its two HTTP calls.  Note the source's transport-error branch for the
events call is `return nil, nil`: a nil occurrence list with a nil error. -/
def getThirtyDaySchedule (addrOutcome : FetchOutcome (List addressItem))
    (schedOutcome : FetchOutcome eventJSON) :
    Except String (List serviceOccurrence) :=
  match getAddressID addrOutcome with
  | .error e => .error e
  | .ok _ =>
    match schedOutcome with
    | .transportError _ => .ok []
    | .badStatus status => .error ("failed to get the schedule: " ++ status)
    | .readError => .error "failed to get the schedule"
    | .body none => .error "failed to unmarshall the response"
    | .body (some rvJSON) => .ok (buildOccurrences rvJSON.Events)

/-- The `for _, occurrence := range occurrences` loop of `handleGetSchedule`
with its early return: the first occurrence whose lowercased display name
equals the lowercased requested service type. -/
def findMatch (serviceTypeLower : String) :
    List serviceOccurrence → Option serviceOccurrence
  | [] => none
  | o :: rest =>
    if strToLower o.GetName = serviceTypeLower then some o
    else findMatch serviceTypeLower rest

/-- `handleGetSchedule` from `main.go`: fetch, propagate errors, then answer
from the first case-insensitive display-name match, or the "not scheduled"
answer with the caller's verbatim service type. -/
def handleGetSchedule (addrOutcome : FetchOutcome (List addressItem))
    (schedOutcome : FetchOutcome eventJSON) (serviceType : String) :
    Except String Response :=
  match getThirtyDaySchedule addrOutcome schedOutcome with
  | .error e => .error e
  | .ok occurrences =>
    let serviceTypeLower := strToLower serviceType
    match findMatch serviceTypeLower occurrences with
    | some occurrence =>
      .ok ⟨occurrence.GetName ++ " Curbside Pick Up",
        "Curbside pick up for " ++ serviceTypeLower ++ " is on " ++
          occurrence.GetFormattedDay ++ "."⟩
    | none =>
      .ok ⟨serviceType ++ " Curbside Pick Up",
        "Curbside pick up for " ++ serviceType ++
          " is not scheduled in the next 30 days."⟩

/-- The tail of the first-day walk in `handleWhatIsNext`: keep taking raw
service names while the formatted day equals the first occurrence's
formatted day, stopping at the first differing day (the loop's `break`). -/
def takeSameDay (pickUpDate : String) : List serviceOccurrence → List String
  | [] => []
  | o :: rest =>
    if pickUpDate = o.GetFormattedDay then o.name :: takeSameDay pickUpDate rest
    else []

/-- The full first-day walk of `handleWhatIsNext`: the formatted day of the
first occurrence and the raw names collected up to the first day change. -/
def collectFirstDay : List serviceOccurrence → String × List String
  | [] => ("", [])
  | o :: rest =>
    (o.GetFormattedDay, o.name :: takeSameDay o.GetFormattedDay rest)

/-- Go's `<` on strings compares bytes; UTF-8 byte order equals code-point
order, so compare the character lists by code point. -/
def listCharLt : List Char → List Char → Bool
  | [], [] => false
  | [], _ :: _ => true
  | _ :: _, [] => false
  | a :: as, b :: bs =>
    if a.toNat < b.toNat then true
    else if b.toNat < a.toNat then false
    else listCharLt as bs

/-- Go string comparison `a < b`. -/
def strLt (a b : String) : Bool := listCharLt a.data b.data

/-- Insertion step for `sortStrings`. -/
def insertStr (s : String) : List String → List String
  | [] => [s]
  | t :: rest => if strLt t s then t :: insertStr s rest else s :: t :: rest

/-- Models Go `sort.Strings`: ascending byte-wise lexicographic order
(identical to code-point order, which UTF-8 byte order preserves). -/
def sortStrings : List String → List String
  | [] => []
  | s :: rest => insertStr s (sortStrings rest)

/-- The message-building loop of `handleWhatIsNext` (lines 101-109 of
`main.go`), translated branch for branch: at index `i` of a list of `n`
sorted names it appends ", and <s>" when `i ≠ 0 ∧ i+1 = n`, ", <s>" when
`i+1 ≠ n`, and " <s>." otherwise. -/
def joinLoop (n : Nat) : Nat → List String → String
  | _, [] => ""
  | i, s :: rest =>
    (if i ≠ 0 ∧ i + 1 = n then ", and " ++ strToLower s
     else if i + 1 ≠ n then ", " ++ strToLower s
     else " " ++ strToLower s ++ ".") ++ joinLoop n (i + 1) rest

/-- `handleWhatIsNext` from `main.go`: fetch, walk the first pick-up day,
answer "No Curbside Pick Up" when nothing was collected, otherwise sort the
raw names and build the message with `joinLoop`. -/
def handleWhatIsNext (addrOutcome : FetchOutcome (List addressItem))
    (schedOutcome : FetchOutcome eventJSON) : Except String Response :=
  match getThirtyDaySchedule addrOutcome schedOutcome with
  | .error e => .error e
  | .ok occurrences =>
    let walked := collectFirstDay occurrences
    let pickUpDate := walked.1
    let serviceNames := walked.2
    if serviceNames.length = 0 then
      .ok ⟨"No Curbside Pick Up",
        "No curbside pick up is scheduled in the next 30 days."⟩
    else
      let sorted := sortStrings serviceNames
      .ok ⟨"Curbside Pick Up Schedule",
        "On " ++ pickUpDate ++ ", there will be curb side pick up for: " ++
          joinLoop sorted.length 0 sorted⟩

/-- A slot of the Alexa request (`Value` field only). -/
structure Slot where
  Value : String
deriving DecidableEq

/-- The intent of the Alexa request: its name and its slots, the latter as
an association list modelling the Go map. -/
structure Intent where
  Name : String
  Slots : List (String × Slot)

/-- Go map indexing `Slots["collectionType"]`: a missing key yields the zero
`Slot` value, whose `Value` is the empty string. -/
def lookupSlot (slots : List (String × Slot)) (key : String) : Slot :=
  match slots.find? (fun p => p.1 == key) with
  | some p => p.2
  | none => ⟨""⟩

/-- Outcome of one dispatcher invocation: a `log.Panic`, a returned error,
or a returned response. -/
inductive DispatchResult where
  | panicked (msg : String)
  | errored (msg : String)
  | responded (r : Response)
deriving DecidableEq

/-- Lifts a handler's `Except` result into a `DispatchResult`. -/
def liftHandler : Except String Response → DispatchResult
  | .error e => .errored e
  | .ok r => .responded r

/-- `intentDispatcher` from `main.go`: panics when the configured address is
empty, then routes on the intent name; `GetSchedule` passes the
`collectionType` slot's value to `handleGetSchedule`. -/
def intentDispatcher (address : String) (request : Intent)
    (addrOutcome : FetchOutcome (List addressItem))
    (schedOutcome : FetchOutcome eventJSON) : DispatchResult :=
  if address = "" then .panicked "the address is not configured"
  else if request.Name = "GetSchedule" then
    liftHandler (handleGetSchedule addrOutcome schedOutcome
      (lookupSlot request.Slots "collectionType").Value)
  else if request.Name = "WhatIsNext" then
    liftHandler (handleWhatIsNext addrOutcome schedOutcome)
  else if request.Name = "AMAZON.HelpIntent" then
    .responded ⟨"Help",
      "You can say things like what's next or when's recycling. The four " ++
        "supported collection types are: garbage, recycling, yard waste, " ++
        "and leaf collection."⟩
  else
    .responded ⟨"Unknown Request", "The intent was unrecognized"⟩

/-- Equality of handler results is decidable. -/
instance : DecidableEq (Except String Response) := fun a b =>
  match a, b with
  | .error x, .error y => decidable_of_iff (x = y) (by simp)
  | .ok x, .ok y => decidable_of_iff (x = y) (by simp)
  | .error _, .ok _ => isFalse (by simp)
  | .ok _, .error _ => isFalse (by simp)

/-! ### Helper lemmas -/

/-- Sanity check: the date formatting matches Go's layout on a known date. -/
example : serviceOccurrence.GetFormattedDay ⟨"2025-03-10", "Garbage"⟩ =
    "Monday, March 10, 2025" := by decide

example : serviceOccurrence.GetFormattedDay ⟨"2021-06-22", "Garbage"⟩ =
    "Tuesday, June 22, 2021" := by decide

/-- The inner flag loop returns the first waste-tagged flag, i.e. `find?`. -/
theorem firstWasteFlag_eq_find (l : List flag) :
    firstWasteFlag l = l.find? (fun f => f.ServiceName == "waste") := by
  induction l with
  | nil => rfl
  | cons f rest ih =>
    by_cases h : f.ServiceName = "waste"
    · simp [firstWasteFlag, List.find?_cons, h]
    · simp [firstWasteFlag, List.find?_cons, h, ih]

/-- The matching loop of `handleGetSchedule` is `find?` on the lowercased
display name. -/
theorem findMatch_eq_find (stl : String) (l : List serviceOccurrence) :
    findMatch stl l = l.find? (fun o => strToLower o.GetName == stl) := by
  induction l with
  | nil => rfl
  | cons o rest ih =>
    by_cases h : strToLower o.GetName = stl
    · simp [findMatch, List.find?_cons, h]
    · simp [findMatch, List.find?_cons, h, ih]

/-- Lowercasing yields the empty string only on the empty string. -/
theorem strToLower_eq_empty_iff (s : String) : strToLower s = "" ↔ s = "" := by
  constructor
  · intro h
    cases s with
    | mk data =>
      cases data with
      | nil => rfl
      | cons c cs => simp [strToLower, String.ext_iff] at h
  · rintro rfl
    rfl

end Cary

namespace Cary

/-! ### Claim theorems -/

/-- C1: the actual outputs of the WhatIsNext message loop.  For one item it
appends " garbage." (yielding a double space after "for: "), and for two or
three items the first item is appended with a leading ", " and the final
item carries no period — not the claimed " for garbage.",
" for garbage, and recycling." shapes. -/
theorem c1_joinLoop_actual :
    joinLoop 1 0 ["garbage"] = " garbage." ∧
    joinLoop 2 0 ["garbage", "recycling"] = ", garbage, and recycling" ∧
    joinLoop 3 0 ["garbage", "recycling", "yardwaste"] =
      ", garbage, recycling, and yardwaste" :=
  ⟨rfl, rfl, rfl⟩

/-- C2: on the claim's upstream event list, WhatIsNext does return the title
"Curbside Pick Up Schedule", but the answer it actually produces is
"On Monday, March 10, 2025, there will be curb side pick up for: , garbage,
and recycling" — with a stray ", " after the colon and no final period —
not the claimed "... for: garbage, and recycling.". -/
theorem c2_endToEnd_actual :
    handleWhatIsNext (.body (some [⟨"PLACE"⟩]))
      (.body (some ⟨[⟨"2025-03-10", [⟨"Garbage", "waste"⟩]⟩,
                     ⟨"2025-03-10", [⟨"Recycling", "waste"⟩]⟩,
                     ⟨"2025-03-17", [⟨"Garbage", "waste"⟩]⟩]⟩)) =
      .ok ⟨"Curbside Pick Up Schedule",
        "On Monday, March 10, 2025, there will be curb side pick up " ++
          "for: , garbage, and recycling"⟩ := by
  decide

/-- C3: when the events HTTP call fails at the transport level (timeout
included), `getThirtyDaySchedule` does NOT fail: it returns a nil error
together with a nil occurrence list (`return nil, nil` in the source), i.e.
success with an empty schedule, contradicting the claimed
UpstreamUnavailable propagation. -/
theorem c3_transport_error_silent_empty
    (addrOutcome : FetchOutcome (List addressItem)) (placeID msg : String)
    (h : getAddressID addrOutcome = .ok placeID) :
    getThirtyDaySchedule addrOutcome (.transportError msg) = .ok [] := by
  unfold getThirtyDaySchedule
  rw [h]

/-- Witness for C3's theorem at a concrete resolved address and timeout. -/
theorem c3_transport_error_silent_empty_witness :
    getThirtyDaySchedule (.body (some [⟨"PLACE"⟩]))
      (.transportError "context deadline exceeded") = .ok [] :=
  c3_transport_error_silent_empty (.body (some [⟨"PLACE"⟩])) "PLACE"
    "context deadline exceeded" rfl

/-- C4: whenever the fetch succeeds with an occurrence list, GetSchedule
answers from the first occurrence whose lowercased display name equals the
lowercased requested type — answer "Curbside pick up for <lower> is on
<formatted day>." with title "<display name> Curbside Pick Up" — and when
none matches it uses the caller-supplied casing verbatim in the
"not scheduled" answer and title. -/
theorem c4_handleGetSchedule_spec (addrOutcome : FetchOutcome (List addressItem))
    (schedOutcome : FetchOutcome eventJSON) (serviceType : String)
    (occurrences : List serviceOccurrence)
    (h : getThirtyDaySchedule addrOutcome schedOutcome = .ok occurrences) :
    handleGetSchedule addrOutcome schedOutcome serviceType =
      .ok (match occurrences.find?
          (fun o => strToLower o.GetName == strToLower serviceType) with
        | some o =>
          ⟨o.GetName ++ " Curbside Pick Up",
            "Curbside pick up for " ++ strToLower serviceType ++ " is on " ++
              o.GetFormattedDay ++ "."⟩
        | none =>
          ⟨serviceType ++ " Curbside Pick Up",
            "Curbside pick up for " ++ serviceType ++
              " is not scheduled in the next 30 days."⟩) := by
  unfold handleGetSchedule
  rw [h]
  simp only [findMatch_eq_find]
  cases List.find? (fun o => strToLower o.GetName == strToLower serviceType)
    occurrences <;> rfl

/-- Witness for C4's theorem: "Recycling" matches case-insensitively and
the no-match case echoes the caller's casing. -/
theorem c4_handleGetSchedule_spec_witness :
    handleGetSchedule (.body (some [⟨"PLACE"⟩]))
      (.body (some ⟨[⟨"2025-03-10", [⟨"Recycling", "waste"⟩]⟩]⟩))
      "RECYCLING" =
      .ok ⟨"Recycling Curbside Pick Up",
        "Curbside pick up for recycling is on Monday, March 10, 2025."⟩ :=
  c4_handleGetSchedule_spec (.body (some [⟨"PLACE"⟩]))
    (.body (some ⟨[⟨"2025-03-10", [⟨"Recycling", "waste"⟩]⟩]⟩))
    "RECYCLING" [⟨"2025-03-10", "Recycling"⟩] rfl

/-- C5: occurrence construction keeps, per event and in event order, exactly
the first flag whose `service_name` is "waste", pairing the event's day with
that flag's name, and drops events with no such flag. -/
theorem c5_buildOccurrences_spec (events : List event) :
    buildOccurrences events = events.filterMap (fun e =>
      (e.Flags.find? (fun f => f.ServiceName == "waste")).map
        (fun f => ⟨e.Day, f.Name⟩)) := by
  induction events with
  | nil => rfl
  | cons e rest ih =>
    simp only [buildOccurrences, firstWasteFlag_eq_find, List.filterMap_cons]
    cases e.Flags.find? (fun f => f.ServiceName == "waste") with
    | none => simpa using ih
    | some f => simpa using ih

/-- C6: the display name maps "yardwaste" to "Yard Waste" and "looseleaf" to
"Leaf Collection"; every other code passes through unchanged. -/
theorem c6_getName_spec :
    (∀ day, (serviceOccurrence.mk day "yardwaste").GetName = "Yard Waste") ∧
    (∀ day, (serviceOccurrence.mk day "looseleaf").GetName = "Leaf Collection") ∧
    (∀ day code, code ≠ "yardwaste" → code ≠ "looseleaf" →
      (serviceOccurrence.mk day code).GetName = code) := by
  refine ⟨fun day => rfl, fun day => rfl, fun day code h1 h2 => ?_⟩
  simp [serviceOccurrence.GetName, h1, h2]

/-- Witness for C6's theorem at the code "garbage". -/
theorem c6_getName_spec_witness :
    (serviceOccurrence.mk "2025-03-10" "garbage").GetName = "garbage" :=
  c6_getName_spec.2.2 "2025-03-10" "garbage" (by decide) (by decide)

/-- C7: when the fetched occurrence sequence is empty, WhatIsNext returns —
as a successful response, not an error — the answer "No curbside pick up is
scheduled in the next 30 days." with title "No Curbside Pick Up". -/
theorem c7_whatIsNext_empty (addrOutcome : FetchOutcome (List addressItem))
    (schedOutcome : FetchOutcome eventJSON)
    (h : getThirtyDaySchedule addrOutcome schedOutcome = .ok []) :
    handleWhatIsNext addrOutcome schedOutcome =
      .ok ⟨"No Curbside Pick Up",
        "No curbside pick up is scheduled in the next 30 days."⟩ := by
  unfold handleWhatIsNext
  rw [h]
  rfl

/-- Witness for C7's theorem: an upstream payload with no events fetches an
empty occurrence list. -/
theorem c7_whatIsNext_empty_witness :
    handleWhatIsNext (.body (some [⟨"PLACE"⟩])) (.body (some ⟨[]⟩)) =
      .ok ⟨"No Curbside Pick Up",
        "No curbside pick up is scheduled in the next 30 days."⟩ :=
  c7_whatIsNext_empty (.body (some [⟨"PLACE"⟩])) (.body (some ⟨[]⟩)) rfl

/-- C8: on a successfully parsed candidate array, address resolution fails
with "the address wasn't found" when the array is empty and returns the
first candidate's place identifier otherwise. -/
theorem c8_getAddressID_spec (addresses : List addressItem) :
    (addresses = [] →
      getAddressID (.body (some addresses)) =
        .error "the address wasn't found") ∧
    (∀ a rest, addresses = a :: rest →
      getAddressID (.body (some addresses)) = .ok a.placeID) := by
  constructor
  · rintro rfl
    rfl
  · rintro a rest rfl
    rfl

/-- Witness for C8's theorem on an empty and on a two-candidate array. -/
theorem c8_getAddressID_spec_witness :
    getAddressID (.body (some ([] : List addressItem))) =
      .error "the address wasn't found" ∧
    getAddressID (.body (some [⟨"PLACE42"⟩, ⟨"OTHER"⟩])) = .ok "PLACE42" :=
  ⟨(c8_getAddressID_spec []).1 rfl,
   (c8_getAddressID_spec [⟨"PLACE42"⟩, ⟨"OTHER"⟩]).2 ⟨"PLACE42"⟩ [⟨"OTHER"⟩] rfl⟩

/-- C9 counterexample: on the unparseable day "not-a-date" the formatted day
is not "Monday, January 1, 1" — Go's year layout token pads to four digits,
so the zero time renders its year as "0001". -/
theorem c9_counterexample :
    parseDate "not-a-date" = none ∧
    (serviceOccurrence.mk "not-a-date" "Garbage").GetFormattedDay ≠
      "Monday, January 1, 1" := by
  decide

/-- C9 (amended): on any day string that fails to parse as YYYY-MM-DD, the
parse error is discarded and the zero time is formatted, so GetFormattedDay
returns "Monday, January 1, 0001" without failing or signalling an error. -/
theorem c9_invalid_day_formats_zero_time (day name : String)
    (h : parseDate day = none) :
    (serviceOccurrence.mk day name).GetFormattedDay =
      "Monday, January 1, 0001" := by
  unfold serviceOccurrence.GetFormattedDay
  rw [h]
  decide

/-- Witness for C9's amended theorem at a concrete unparseable day. -/
theorem c9_invalid_day_formats_zero_time_witness :
    (serviceOccurrence.mk "06/22/2021" "Garbage").GetFormattedDay =
      "Monday, January 1, 0001" :=
  c9_invalid_day_formats_zero_time "06/22/2021" "Garbage" (by decide)

/-- C10: when a GetSchedule request carries no collectionType slot, the Go
map lookup yields the zero slot, the dispatcher passes the empty string as
the service type, and — provided no fetched occurrence has an empty display
name — the handler completes normally with the no-match answer rendered
with an empty service-type name. -/
theorem c10_missing_slot_dispatch (address : String) (request : Intent)
    (addrOutcome : FetchOutcome (List addressItem))
    (schedOutcome : FetchOutcome eventJSON)
    (occurrences : List serviceOccurrence)
    (haddr : address ≠ "")
    (hname : request.Name = "GetSchedule")
    (hslot : request.Slots.find? (fun p => p.1 == "collectionType") = none)
    (hfetch : getThirtyDaySchedule addrOutcome schedOutcome = .ok occurrences)
    (hocc : ∀ o ∈ occurrences, o.GetName ≠ "") :
    intentDispatcher address request addrOutcome schedOutcome =
      .responded ⟨" Curbside Pick Up",
        "Curbside pick up for  is not scheduled in the next 30 days."⟩ := by
  have hval : (lookupSlot request.Slots "collectionType").Value = "" := by
    simp [lookupSlot, hslot]
  have hmatch : findMatch (strToLower "") occurrences = none := by
    rw [findMatch_eq_find, List.find?_eq_none]
    intro o ho
    simp only [beq_iff_eq]
    intro hc
    exact hocc o ho ((strToLower_eq_empty_iff o.GetName).mp hc)
  have hhandle : handleGetSchedule addrOutcome schedOutcome "" =
      .ok ⟨" Curbside Pick Up",
        "Curbside pick up for  is not scheduled in the next 30 days."⟩ := by
    unfold handleGetSchedule
    rw [hfetch]
    simp only [hmatch]
    rfl
  unfold intentDispatcher
  rw [if_neg haddr, hname, if_pos rfl, hval, hhandle]
  rfl

/-- Witness for C10's theorem at a concrete request with no slots. -/
theorem c10_missing_slot_dispatch_witness :
    intentDispatcher "1260 NW Maynard Rd" ⟨"GetSchedule", []⟩
      (.body (some [⟨"PLACE"⟩]))
      (.body (some ⟨[⟨"2025-03-10", [⟨"Garbage", "waste"⟩]⟩]⟩)) =
      .responded ⟨" Curbside Pick Up",
        "Curbside pick up for  is not scheduled in the next 30 days."⟩ :=
  c10_missing_slot_dispatch "1260 NW Maynard Rd" ⟨"GetSchedule", []⟩
    (.body (some [⟨"PLACE"⟩]))
    (.body (some ⟨[⟨"2025-03-10", [⟨"Garbage", "waste"⟩]⟩]⟩))
    [⟨"2025-03-10", "Garbage"⟩] (by decide) rfl rfl rfl (by decide)

end Cary
